import Mathlib

/-
Verification development for the Blink402 payment-verification and settlement core.

Shallow embedding of the TypeScript sources:
  * token-holder.ts            — tier engine, benefits tables, discount quoting
  * transaction-builder.ts     — USDC payment template builder (x402 EXACT-SVM shape)
  * index.ts (solana helpers)  — verifyPayment, validateTransferManually,
                                 validateSplTokenTransfer, validateSolTransfer,
                                 buildRewardTransaction, buildRefundTransaction
  * config (env validation)    — isProduction, isMockPaymentsEnabled
  * retry-utils.ts             — withExponentialBackoff delay computation

JavaScript numbers appearing in financial arithmetic are modelled as exact
rationals (ℚ); bigint amounts as ℤ; addresses and signatures as Strings.
Network effects (RPC calls, polling) are modelled by passing the observed
ledger responses in explicitly: a list of signature infos for the reference,
a list of poll results for the signature status, and the fetched transaction.
-/

namespace Blink402

/-! ## Tier engine (token-holder.ts) -/

inductive TokenHolderTier
  | NONE
  | BRONZE
  | SILVER
  | GOLD
  | DIAMOND
deriving DecidableEq, Repr

/-- Rank of a tier, used to state monotonicity (NONE < BRONZE < SILVER < GOLD < DIAMOND). -/
def TokenHolderTier.toNat : TokenHolderTier → Nat
  | .NONE => 0
  | .BRONZE => 1
  | .SILVER => 2
  | .GOLD => 3
  | .DIAMOND => 4

structure SlotMachineBenefits where
  discountPercent : ℚ
  bonusMultiplier : ℚ
  freeSpinsDaily : ℕ
deriving DecidableEq, Repr

structure LotteryBenefits where
  discountPercent : ℚ
  bonusEntries : ℕ
  winBoostPercent : ℚ
deriving DecidableEq, Repr

structure BlinksBenefits where
  creatorFeeDiscount : ℚ
  priorityExecution : Bool
  customBranding : Bool
deriving DecidableEq, Repr

structure TokenBenefits where
  slotMachine : SlotMachineBenefits
  lottery : LotteryBenefits
  blinks : BlinksBenefits
deriving DecidableEq, Repr

/-- Tier thresholds in B402 tokens (source constant TIER_THRESHOLDS). -/
structure TierThresholds where
  BRONZE : ℚ
  SILVER : ℚ
  GOLD : ℚ
  DIAMOND : ℚ

def TIER_THRESHOLDS : TierThresholds :=
  { BRONZE := 1000, SILVER := 10000, GOLD := 50000, DIAMOND := 100000 }

/-- Benefits by tier (source constant TIER_BENEFITS). -/
def TIER_BENEFITS : TokenHolderTier → TokenBenefits
  | .NONE =>
    { slotMachine := { discountPercent := 0, bonusMultiplier := 1, freeSpinsDaily := 0 }
      lottery := { discountPercent := 0, bonusEntries := 0, winBoostPercent := 0 }
      blinks := { creatorFeeDiscount := 0, priorityExecution := false, customBranding := false } }
  | .BRONZE =>
    { slotMachine := { discountPercent := 5, bonusMultiplier := 105/100, freeSpinsDaily := 1 }
      lottery := { discountPercent := 5, bonusEntries := 0, winBoostPercent := 5 }
      blinks := { creatorFeeDiscount := 10, priorityExecution := false, customBranding := false } }
  | .SILVER =>
    { slotMachine := { discountPercent := 10, bonusMultiplier := 110/100, freeSpinsDaily := 3 }
      lottery := { discountPercent := 10, bonusEntries := 1, winBoostPercent := 10 }
      blinks := { creatorFeeDiscount := 20, priorityExecution := false, customBranding := true } }
  | .GOLD =>
    { slotMachine := { discountPercent := 15, bonusMultiplier := 115/100, freeSpinsDaily := 5 }
      lottery := { discountPercent := 15, bonusEntries := 2, winBoostPercent := 15 }
      blinks := { creatorFeeDiscount := 30, priorityExecution := true, customBranding := true } }
  | .DIAMOND =>
    { slotMachine := { discountPercent := 20, bonusMultiplier := 125/100, freeSpinsDaily := 10 }
      lottery := { discountPercent := 20, bonusEntries := 5, winBoostPercent := 25 }
      blinks := { creatorFeeDiscount := 50, priorityExecution := true, customBranding := true } }

/-- B402 token decimals (source constant B402_DECIMALS). -/
def B402_DECIMALS : ℕ := 9

/-- Tier decision chain inside getB402HolderTier: balance compared against the
thresholds from DIAMOND down to BRONZE, defaulting to NONE. -/
def holderTier (balance : ℚ) : TokenHolderTier :=
  if balance ≥ TIER_THRESHOLDS.DIAMOND then .DIAMOND
  else if balance ≥ TIER_THRESHOLDS.GOLD then .GOLD
  else if balance ≥ TIER_THRESHOLDS.SILVER then .SILVER
  else if balance ≥ TIER_THRESHOLDS.BRONZE then .BRONZE
  else .NONE

/-- Outcome of the balance lookup performed by getB402HolderTier: either the raw
token-account amount, or one of the failure modes the source catches
(TokenAccountNotFoundError-like errors in the inner catch, any other account
error in the inner catch, and wallet-parse or ATA-derivation errors in the
outer catch). -/
inductive BalanceLookup
  | ok (rawBalance : ℤ)
  | tokenAccountNotFound
  | unexpectedAccountError
  | walletError
deriving DecidableEq, Repr

def BalanceLookup.isFailure : BalanceLookup → Bool
  | .ok _ => false
  | .tokenAccountNotFound => true
  | .unexpectedAccountError => true
  | .walletError => true

structure TokenHolderInfo where
  tier : TokenHolderTier
  balance : ℚ
  rawBalance : ℤ
  benefits : TokenBenefits
deriving DecidableEq, Repr

/-- The NONE-tier fail-safe record returned by every error path of getB402HolderTier. -/
def noneHolderInfo : TokenHolderInfo :=
  { tier := .NONE, balance := 0, rawBalance := 0, benefits := TIER_BENEFITS .NONE }

/-- getB402HolderTier as a function of the balance-lookup outcome: on success the
balance is rawBalance / 10 ^ B402_DECIMALS and the tier is decided by the
threshold chain; every failure path returns the NONE-tier record. -/
def getB402HolderTier : BalanceLookup → TokenHolderInfo
  | .ok raw =>
    let balance : ℚ := (raw : ℚ) / 10 ^ B402_DECIMALS
    { tier := holderTier balance, balance := balance, rawBalance := raw,
      benefits := TIER_BENEFITS (holderTier balance) }
  | .tokenAccountNotFound => noneHolderInfo
  | .unexpectedAccountError => noneHolderInfo
  | .walletError => noneHolderInfo

inductive GameType
  | slotMachine
  | lottery
  | blinks
deriving DecidableEq, Repr

/-- Discount-percent selection inside applyB402Discount: slotMachine and lottery
use discountPercent, blinks uses creatorFeeDiscount. -/
def discountPercentFor (benefits : TokenBenefits) : GameType → ℚ
  | .slotMachine => benefits.slotMachine.discountPercent
  | .lottery => benefits.lottery.discountPercent
  | .blinks => benefits.blinks.creatorFeeDiscount

structure DiscountResult where
  discountedPrice : ℚ
  originalPrice : ℚ
  tier : TokenHolderTier
  savings : ℚ
  discountPercent : ℚ
deriving DecidableEq, Repr

/-- applyB402Discount: discountAmount = basePrice * (percent / 100),
discountedPrice = max 0 (basePrice - discountAmount). -/
def applyB402Discount (basePrice : ℚ) (lookup : BalanceLookup) (gameType : GameType) :
    DiscountResult :=
  let holderInfo := getB402HolderTier lookup
  let discountPercent := discountPercentFor holderInfo.benefits gameType
  let discountAmount := basePrice * (discountPercent / 100)
  let discountedPrice := max 0 (basePrice - discountAmount)
  { discountedPrice := discountedPrice, originalPrice := basePrice, tier := holderInfo.tier,
    savings := discountAmount, discountPercent := discountPercent }

/-! ### Helper lemmas for the tier engine -/

theorem getB402HolderTier_benefits_eq (l : BalanceLookup) :
    (getB402HolderTier l).benefits = TIER_BENEFITS (getB402HolderTier l).tier := by
  cases l <;> rfl

theorem discountPercentFor_bounds (t : TokenHolderTier) (g : GameType) :
    0 ≤ discountPercentFor (TIER_BENEFITS t) g ∧ discountPercentFor (TIER_BENEFITS t) g ≤ 100 := by
  cases t <;> cases g <;> norm_num [discountPercentFor, TIER_BENEFITS]

theorem discount_arith (b p : ℚ) (hb : 0 ≤ b) (_hp0 : 0 ≤ p) (hp1 : p ≤ 100) :
    max 0 (b - b * (p / 100)) = b * (1 - p / 100)
      ∧ 0 ≤ max 0 (b - b * (p / 100))
      ∧ max 0 (b - b * (p / 100)) + b * (p / 100) = b := by
  have hfac : 0 ≤ 1 - p / 100 := by linarith
  have hnn : 0 ≤ b * (1 - p / 100) := mul_nonneg hb hfac
  have heq : b - b * (p / 100) = b * (1 - p / 100) := by ring
  have hmax : max 0 (b - b * (p / 100)) = b - b * (p / 100) := by
    rw [max_eq_right]; rw [heq]; exact hnn
  refine ⟨by rw [hmax, heq], by rw [hmax, heq]; exact hnn, by rw [hmax]; ring⟩

/-! ## Claim theorems: tier engine -/

/-- C6: the tier function is monotonic non-decreasing in the balance, and takes
the stated values at the fixed thresholds: tier 0 = NONE, tier 1000 = BRONZE,
tier 9999 = BRONZE, tier 10000 = SILVER, tier 50000 = GOLD,
tier 100000 = DIAMOND. -/
theorem holderTier_monotone_and_thresholds :
    (∀ b1 b2 : ℚ, 0 ≤ b1 → b1 ≤ b2 → (holderTier b1).toNat ≤ (holderTier b2).toNat)
      ∧ holderTier 0 = .NONE
      ∧ holderTier 1000 = .BRONZE
      ∧ holderTier 9999 = .BRONZE
      ∧ holderTier 10000 = .SILVER
      ∧ holderTier 50000 = .GOLD
      ∧ holderTier 100000 = .DIAMOND := by
  refine ⟨?_, ?_, ?_, ?_, ?_, ?_, ?_⟩
  · intro b1 b2 _ h
    simp only [holderTier, TIER_THRESHOLDS]
    split_ifs <;> simp [TokenHolderTier.toNat] <;> linarith
  all_goals norm_num [holderTier, TIER_THRESHOLDS]

/-- Witness for C6: the monotonicity clause applied at the concrete pair (500, 20000). -/
theorem holderTier_monotone_witness :
    (holderTier 500).toNat ≤ (holderTier 20000).toNat ∧ holderTier 0 = .NONE :=
  ⟨holderTier_monotone_and_thresholds.1 500 20000 (by norm_num) (by norm_num),
   holderTier_monotone_and_thresholds.2.1⟩

/-- C7: for every basePrice ≥ 0, every balance-lookup outcome and every game type,
the discount quote satisfies discountedPrice = basePrice * (1 - percent / 100),
discountedPrice ≥ 0, and discountedPrice + savings = basePrice exactly. -/
theorem applyB402Discount_exact :
    ∀ (basePrice : ℚ), 0 ≤ basePrice → ∀ (lookup : BalanceLookup) (g : GameType),
      (applyB402Discount basePrice lookup g).discountedPrice
          = basePrice * (1 - (applyB402Discount basePrice lookup g).discountPercent / 100)
        ∧ 0 ≤ (applyB402Discount basePrice lookup g).discountedPrice
        ∧ (applyB402Discount basePrice lookup g).discountedPrice
            + (applyB402Discount basePrice lookup g).savings = basePrice := by
  intro basePrice hb lookup g
  have hbench := getB402HolderTier_benefits_eq lookup
  have hbounds := discountPercentFor_bounds (getB402HolderTier lookup).tier g
  rw [← hbench] at hbounds
  have h := discount_arith basePrice (discountPercentFor (getB402HolderTier lookup).benefits g)
    hb hbounds.1 hbounds.2
  simp only [applyB402Discount]
  exact ⟨h.1, h.2.1, h.2.2⟩

/-- Witness for C7: the theorem applied at basePrice = 5/100 (Scenario D's 0.05),
a SILVER-balance lookup, and the slotMachine game type. -/
theorem applyB402Discount_exact_witness :
    (applyB402Discount (5/100) (.ok 15000000000000) .slotMachine).discountedPrice
        = (5/100 : ℚ) * (1 - (applyB402Discount (5/100) (.ok 15000000000000) .slotMachine).discountPercent / 100)
      ∧ 0 ≤ (applyB402Discount (5/100) (.ok 15000000000000) .slotMachine).discountedPrice
      ∧ (applyB402Discount (5/100) (.ok 15000000000000) .slotMachine).discountedPrice
          + (applyB402Discount (5/100) (.ok 15000000000000) .slotMachine).savings = 5/100 :=
  applyB402Discount_exact (5/100) (by norm_num) (.ok 15000000000000) .slotMachine

/-- C10: getB402HolderTier is total over the lookup outcome and never propagates
an error: every failing balance lookup (missing token account, invalid address,
or any other RPC error) yields tier NONE, balance 0, raw balance 0 and the NONE
benefit set. -/
theorem getB402HolderTier_failSafe :
    ∀ l : BalanceLookup, l.isFailure = true →
      getB402HolderTier l
        = { tier := .NONE, balance := 0, rawBalance := 0, benefits := TIER_BENEFITS .NONE } := by
  intro l h
  cases l with
  | ok raw => simp [BalanceLookup.isFailure] at h
  | tokenAccountNotFound => rfl
  | unexpectedAccountError => rfl
  | walletError => rfl

/-- Witness for C10: the theorem applied at the unexpected-RPC-error outcome. -/
theorem getB402HolderTier_failSafe_witness :
    getB402HolderTier .unexpectedAccountError
      = { tier := .NONE, balance := 0, rawBalance := 0, benefits := TIER_BENEFITS .NONE } :=
  getB402HolderTier_failSafe .unexpectedAccountError rfl

/-! ## Configuration (env validation, part of @blink402/config) -/

/-- Relevant slice of process.env: raw string values, none when unset. -/
structure Env where
  mockPayments : Option String
  nodeEnv : Option String
deriving DecidableEq, Repr

namespace Config

/-- isProduction: NODE_ENV strictly equals the string production. -/
def isProduction (env : Env) : Bool :=
  env.nodeEnv == some "production"

/-- isMockPaymentsEnabled from the config package: force-disabled whenever
isProduction holds, otherwise MOCK_PAYMENTS must be the exact string true. -/
def isMockPaymentsEnabled (env : Env) : Bool :=
  if isProduction env then false
  else env.mockPayments == some "true"

end Config

/-- The inline guard at the top of verifyPayment:
MOCK_PAYMENTS equals the string true and NODE_ENV is not production. -/
def mockBranch (env : Env) : Bool :=
  env.mockPayments == some "true" && env.nodeEnv != some "production"

/-! ## Retry policy (retry-utils.ts) -/

/-- Delay computed at a given retry attempt inside withExponentialBackoff:
baseDelay = initialDelayMs * backoffMultiplier ^ attempt,
jitteredDelay = baseDelay * (0.5 + rand * 0.5) with rand = jitter attempt ∈ [0, 1),
nextDelay = min jitteredDelay maxDelayMs. -/
def backoffDelay (initialDelayMs maxDelayMs backoffMultiplier : ℚ) (jitter : ℕ → ℚ)
    (attempt : ℕ) : ℚ :=
  let baseDelay := initialDelayMs * backoffMultiplier ^ attempt
  let jitteredDelay := baseDelay * (1/2 + jitter attempt * (1/2))
  min jitteredDelay maxDelayMs

/-- The default retry configuration of withExponentialBackoff. -/
def defaultRetryConfig : ℚ × ℚ × ℚ := (1000, 30000, 2)

/-! ## Transfer validation and payment verification (solana helpers index.ts)

The SPL associated-token-account derivation is an injective address pairing on
chain; its cryptographic details are irrelevant here, so it is modelled as an
injective pairing of mint and owner strings. -/

def getAssociatedTokenAddress (mint owner : String) : String :=
  "ata(" ++ mint ++ "," ++ owner ++ ")"

/-- One entry of meta.preTokenBalances / meta.postTokenBalances: the account
index into the transaction's account keys, the token mint, and the atomic
amount (uiTokenAmount.amount parsed as a bigint). -/
structure TokenBalance where
  accountIndex : ℕ
  mint : String
  amount : ℤ
deriving DecidableEq, Repr

structure TxMeta where
  err : Bool
  preTokenBalances : List TokenBalance
  postTokenBalances : List TokenBalance
  preBalances : List ℤ
  postBalances : List ℤ
deriving DecidableEq, Repr

/-- A fetched transaction: metaPresent models the null check on transaction.meta,
accountKeys is transaction.transaction.message.accountKeys (already reduced to
base58 strings, as the jsonParsed handling in the source does), and blockTime
is optional. -/
structure Tx where
  metaPresent : Bool
  meta : TxMeta
  accountKeys : List String
  blockTime : Option ℤ
deriving DecidableEq, Repr

inductive ValidationError
  | metadataMissing
  | referenceNotFound
  | wrongToken (expected got : String)
  | noSplTransferFound (recipientATA : String)
  | amountMismatch (expected actual : ℤ)
  | recipientNotFound (recipient : String)
  | noSolReceived (recipient : String) (balanceChange : ℤ)
  | solAmountMismatch (expected actual : ℤ)
deriving DecidableEq, Repr

/-- The scan inside validateSplTokenTransfer: walk postTokenBalances in order,
pair each with the preTokenBalance of the same accountIndex (0 when absent),
and return the first entry whose account key equals the recipient ATA and whose
balance change is strictly positive, together with that change.
An accountIndex outside the account-keys array never matches. -/
def findRecipientCredit (post pre : List TokenBalance) (keys : List String)
    (recipientATA : String) : Option (TokenBalance × ℤ) :=
  match post with
  | [] => none
  | pb :: rest =>
    let preAmount : ℤ :=
      match pre.find? (fun q => q.accountIndex == pb.accountIndex) with
      | some q => q.amount
      | none => 0
    let balanceChange := pb.amount - preAmount
    let keyMatches : Bool :=
      match keys.get? pb.accountIndex with
      | some k => k == recipientATA
      | none => false
    if keyMatches && balanceChange > 0 then some (pb, balanceChange)
    else findRecipientCredit rest pre keys recipientATA

/-- validateSplTokenTransfer: find the recipient ATA's positive balance change;
no such credit is an error; a credit in the wrong mint is an error; otherwise
the absolute difference from the expected amount may be at most 1 atomic unit. -/
def validateSplTokenTransfer (tx : Tx) (expectedRecipientATA : String)
    (expectedAmount : ℤ) (expectedToken : String) : Except ValidationError Unit :=
  match findRecipientCredit tx.meta.postTokenBalances tx.meta.preTokenBalances
      tx.accountKeys expectedRecipientATA with
  | none => .error (.noSplTransferFound expectedRecipientATA)
  | some (pb, actualAmount) =>
    if pb.mint != expectedToken then .error (.wrongToken expectedToken pb.mint)
    else
      let amountDifference :=
        if actualAmount > expectedAmount then actualAmount - expectedAmount
        else expectedAmount - actualAmount
      if amountDifference > 1 then .error (.amountMismatch expectedAmount actualAmount)
      else .ok ()

/-- validateSolTransfer: locate the recipient among the account keys, compute the
native balance delta from pre/post balances (0 for a missing entry), require a
strictly positive delta, and allow up to 1,000,000 lamports of difference for
rent/fee artifacts. -/
def validateSolTransfer (tx : Tx) (expectedRecipient : String) (expectedAmount : ℤ) :
    Except ValidationError Unit :=
  match tx.accountKeys.findIdx? (fun k => k == expectedRecipient) with
  | none => .error (.recipientNotFound expectedRecipient)
  | some recipientIndex =>
    let postBalance := tx.meta.postBalances.getD recipientIndex 0
    let preBalance := tx.meta.preBalances.getD recipientIndex 0
    let balanceChange := postBalance - preBalance
    if balanceChange ≤ 0 then .error (.noSolReceived expectedRecipient balanceChange)
    else
      let amountDifference :=
        if balanceChange > expectedAmount then balanceChange - expectedAmount
        else expectedAmount - balanceChange
      if amountDifference > 1000000 then .error (.solAmountMismatch expectedAmount balanceChange)
      else .ok ()

/-- validateTransferManually: require metadata, then require the reference among
the transaction's account keys before any balance inspection, then dispatch on
the asset kind. -/
def validateTransferManually (tx : Tx) (expectedRecipient : String) (expectedAmount : ℤ)
    (expectedToken : Option String) (reference : String) : Except ValidationError Unit :=
  if !tx.metaPresent then .error .metadataMissing
  else if !(tx.accountKeys.contains reference) then .error .referenceNotFound
  else
    match expectedToken with
    | some token =>
      validateSplTokenTransfer tx (getAssociatedTokenAddress token expectedRecipient)
        expectedAmount token
    | none => validateSolTransfer tx expectedRecipient expectedAmount

inductive ConfStatus
  | processed
  | confirmed
  | finalized
deriving DecidableEq, Repr

/-- One entry of getSignaturesForAddress for the reference account. -/
structure SigInfo where
  signature : String
  confirmationStatus : Option ConfStatus
deriving DecidableEq, Repr

/-- One non-null getSignatureStatus response for the located signature. -/
structure SignatureStatus where
  err : Bool
  confirmationStatus : Option ConfStatus
deriving DecidableEq, Repr

structure VerifyResult where
  signature : String
  amount : ℤ
  timestamp : ℤ
deriving DecidableEq, Repr

inductive VerifyError
  | paymentNotFound
  | noConfirmedTransaction
  | onChainExecutionFailure
  | confirmationTimeout
  | confirmedTxNotFound
  | txFailedOnChain
  | validationFailed (e : ValidationError)
deriving DecidableEq, Repr

/-- findReferenceWithoutValidation: no signatures at all is an error; otherwise
return the first signature at confirmed or finalized status, erroring when none
is confirmed yet. -/
def findReferenceWithoutValidation (sigs : List SigInfo) : Except VerifyError SigInfo :=
  if sigs.isEmpty then .error .paymentNotFound
  else
    match sigs.find? (fun s =>
        s.confirmationStatus == some ConfStatus.confirmed
          || s.confirmationStatus == some ConfStatus.finalized) with
    | none => .error .noConfirmedTransaction
    | some s => .ok s

/-- The confirmation-wait loop of verifyPayment over the successive
getSignatureStatus responses: a null status is skipped; a status carrying an
execution error aborts immediately; confirmed or finalized succeeds; any other
status polls again; running out of polls models the timeout. -/
def waitForConfirmation : List (Option SignatureStatus) → Except VerifyError Unit
  | [] => .error .confirmationTimeout
  | none :: rest => waitForConfirmation rest
  | some s :: rest =>
    if s.err then .error .onChainExecutionFailure
    else if s.confirmationStatus == some ConfStatus.confirmed
        || s.confirmationStatus == some ConfStatus.finalized then .ok ()
    else waitForConfirmation rest

/-- verifyPayment over the observed ledger responses: the mock branch first, then
locate a signature for the reference, wait for confirmation, fetch the
transaction, re-check meta.err, and validate the transfer; on success the
verification result carries the located signature, the expected amount, and the
block time (falling back to the current time when absent or zero, mirroring the
JavaScript falsy check). -/
def verifyPayment (env : Env) (reference expectedRecipient : String) (amount : ℤ)
    (splToken : Option String) (sigs : List SigInfo)
    (polls : List (Option SignatureStatus)) (fetched : Option Tx) (now : ℤ) :
    Except VerifyError VerifyResult :=
  if mockBranch env then
    .ok { signature := "MOCK_" ++ reference.take 44 ++ "_VERIFIED", amount := amount,
          timestamp := now }
  else
    match findReferenceWithoutValidation sigs with
    | .error e => .error e
    | .ok sigInfo =>
      match waitForConfirmation polls with
      | .error e => .error e
      | .ok _ =>
        match fetched with
        | none => .error .confirmedTxNotFound
        | some tx =>
          if tx.metaPresent && tx.meta.err then .error .txFailedOnChain
          else
            match validateTransferManually tx expectedRecipient amount splToken reference with
            | .error e => .error (.validationFailed e)
            | .ok _ =>
              .ok { signature := sigInfo.signature, amount := amount,
                    timestamp :=
                      match tx.blockTime with
                      | some t => if t == 0 then now else t
                      | none => now }

/-! ### Helper lemmas for the verification flow -/

theorem waitForConfirmation_err (pre : List (Option SignatureStatus)) (s : SignatureStatus)
    (rest : List (Option SignatureStatus)) (hpre : ∀ x ∈ pre, x = none) (hs : s.err = true) :
    waitForConfirmation (pre ++ some s :: rest) = .error .onChainExecutionFailure := by
  induction pre with
  | nil => simp [waitForConfirmation, hs]
  | cons a as ih =>
    have ha : a = none := hpre a (by simp)
    subst ha
    simp only [List.cons_append, waitForConfirmation]
    exact ih (fun x hx => hpre x (by simp [hx]))

/-! ## Claim theorems: payment verification -/

/-- C1: whenever the ledger reports an execution error for the located signature —
either through a polled signature status carrying err, or through meta.err on
the fetched transaction — verifyPayment returns the corresponding on-chain
execution-failure error and never a verification result; the poll-status case
holds for an arbitrary continuation of the status stream, so the failure is
terminal and is never retried into success. -/
theorem verifyPayment_execution_error_terminal :
    (∀ (env : Env) (reference recipient : String) (amount : ℤ) (splToken : Option String)
        (sigs : List SigInfo) (pre : List (Option SignatureStatus)) (s : SignatureStatus)
        (rest : List (Option SignatureStatus)) (fetched : Option Tx) (now : ℤ) (sigInfo : SigInfo),
      mockBranch env = false →
      findReferenceWithoutValidation sigs = .ok sigInfo →
      (∀ x ∈ pre, x = none) →
      s.err = true →
      verifyPayment env reference recipient amount splToken sigs (pre ++ some s :: rest) fetched now
        = .error .onChainExecutionFailure)
    ∧ (∀ (env : Env) (reference recipient : String) (amount : ℤ) (splToken : Option String)
        (sigs : List SigInfo) (polls : List (Option SignatureStatus)) (tx : Tx) (now : ℤ)
        (sigInfo : SigInfo),
      mockBranch env = false →
      findReferenceWithoutValidation sigs = .ok sigInfo →
      waitForConfirmation polls = .ok () →
      tx.metaPresent = true →
      tx.meta.err = true →
      verifyPayment env reference recipient amount splToken sigs polls (some tx) now
        = .error .txFailedOnChain) := by
  constructor
  · intro env reference recipient amount splToken sigs pre s rest fetched now sigInfo
      hmock hfind hpre hs
    simp [verifyPayment, hmock, hfind, waitForConfirmation_err pre s rest hpre hs]
  · intro env reference recipient amount splToken sigs polls tx now sigInfo
      hmock hfind hwait hmp hme
    simp [verifyPayment, hmock, hfind, hwait, hmp, hme]

/-- Witness for C1: both execution-error paths evaluated at concrete inputs. -/
theorem verifyPayment_execution_error_terminal_witness :
    verifyPayment ⟨none, none⟩ "REF" "MERCHANT" 50000 none
        [⟨"SIG1", some ConfStatus.confirmed⟩] [some ⟨true, some ConfStatus.processed⟩] none 0
      = .error .onChainExecutionFailure
    ∧ verifyPayment ⟨none, none⟩ "REF" "MERCHANT" 50000 none
        [⟨"SIG1", some ConfStatus.confirmed⟩] [some ⟨false, some ConfStatus.confirmed⟩]
        (some ⟨true, ⟨true, [], [], [], []⟩, ["REF"], none⟩) 0
      = .error .txFailedOnChain :=
  ⟨verifyPayment_execution_error_terminal.1 ⟨none, none⟩ "REF" "MERCHANT" 50000 none
      [⟨"SIG1", some ConfStatus.confirmed⟩] [] ⟨true, some ConfStatus.processed⟩ [] none 0
      ⟨"SIG1", some ConfStatus.confirmed⟩ rfl rfl (by simp) rfl,
   verifyPayment_execution_error_terminal.2 ⟨none, none⟩ "REF" "MERCHANT" 50000 none
      [⟨"SIG1", some ConfStatus.confirmed⟩] [some ⟨false, some ConfStatus.confirmed⟩]
      ⟨true, ⟨true, [], [], [], []⟩, ["REF"], none⟩ 0
      ⟨"SIG1", some ConfStatus.confirmed⟩ rfl rfl rfl rfl rfl⟩

/-- C2: for every transaction with metadata and every expectation, if the
reference address does not appear among the transaction's account keys,
validation fails with the reference-not-found mismatch — for arbitrary balance
data, so before and regardless of any balance check. -/
theorem validateTransferManually_reference_required :
    ∀ (tx : Tx) (recipient : String) (amount : ℤ) (token : Option String) (reference : String),
      tx.metaPresent = true →
      tx.accountKeys.contains reference = false →
      validateTransferManually tx recipient amount token reference
        = .error .referenceNotFound := by
  intro tx recipient amount token reference hmeta href
  have hnot : ¬ (reference ∈ tx.accountKeys) := by
    intro hmem
    have htrue : tx.accountKeys.contains reference = true := by
      rw [List.contains_iff_exists_mem_beq]
      exact ⟨reference, hmem, by simp⟩
    rw [htrue] at href
    exact Bool.noConfusion href
  simp [validateTransferManually, hmeta, hnot]

/-- Witness for C2: a transaction that transfers exactly the expected amount of
the expected token to the expected recipient, but lacks the reference among its
account keys, still fails with the reference mismatch (second conjunct shows
the balances would otherwise validate). -/
theorem validateTransferManually_reference_required_witness :
    validateTransferManually
        ⟨true, ⟨false, [⟨0, "USDC", 0⟩], [⟨0, "USDC", 50000⟩], [], []⟩,
         [getAssociatedTokenAddress "USDC" "MERCHANT"], none⟩
        "MERCHANT" 50000 (some "USDC") "REF" = .error .referenceNotFound
    ∧ validateSplTokenTransfer
        ⟨true, ⟨false, [⟨0, "USDC", 0⟩], [⟨0, "USDC", 50000⟩], [], []⟩,
         [getAssociatedTokenAddress "USDC" "MERCHANT"], none⟩
        (getAssociatedTokenAddress "USDC" "MERCHANT") 50000 "USDC" = .ok () :=
  ⟨validateTransferManually_reference_required
      ⟨true, ⟨false, [⟨0, "USDC", 0⟩], [⟨0, "USDC", 50000⟩], [], []⟩,
       [getAssociatedTokenAddress "USDC" "MERCHANT"], none⟩
      "MERCHANT" 50000 (some "USDC") "REF" rfl rfl,
   rfl⟩

/-- C3: for every SPL-token validation in which the recipient's token account
received a positive balance change of the expected mint, the delta must equal
the expected amount to within at most 1 atomic unit: within the tolerance the
validation succeeds, and any larger difference fails with a mismatch carrying
the expected and actual amounts. -/
theorem validateSplTokenTransfer_tolerance :
    ∀ (tx : Tx) (recipientATA : String) (expectedAmount : ℤ) (token : String)
      (pb : TokenBalance) (actual : ℤ),
      findRecipientCredit tx.meta.postTokenBalances tx.meta.preTokenBalances
          tx.accountKeys recipientATA = some (pb, actual) →
      pb.mint = token →
      ((if actual > expectedAmount then actual - expectedAmount
          else expectedAmount - actual) ≤ 1 →
        validateSplTokenTransfer tx recipientATA expectedAmount token = .ok ())
      ∧ (1 < (if actual > expectedAmount then actual - expectedAmount
          else expectedAmount - actual) →
        validateSplTokenTransfer tx recipientATA expectedAmount token
          = .error (.amountMismatch expectedAmount actual)) := by
  intro tx recipientATA expectedAmount token pb actual hfind hmint
  simp only [validateSplTokenTransfer, hfind, hmint, bne_self_eq_false, Bool.false_eq_true,
    if_false]
  constructor
  · intro hle
    rw [if_neg (by omega)]
  · intro hgt
    rw [if_pos (by omega)]

/-- Witness for C3: Scenario C — a transfer of 40000 atomic units against an
expected 50000 yields the mismatch carrying expected 50000 and actual 40000. -/
theorem validateSplTokenTransfer_tolerance_witness :
    1 < (if (40000 : ℤ) > 50000 then (40000 : ℤ) - 50000 else 50000 - 40000)
    ∧ validateSplTokenTransfer
        ⟨true, ⟨false, [⟨0, "USDC", 0⟩], [⟨0, "USDC", 40000⟩], [], []⟩,
         [getAssociatedTokenAddress "USDC" "MERCHANT", "REF"], none⟩
        (getAssociatedTokenAddress "USDC" "MERCHANT") 50000 "USDC"
      = .error (.amountMismatch 50000 40000) :=
  ⟨by norm_num,
   (validateSplTokenTransfer_tolerance
      ⟨true, ⟨false, [⟨0, "USDC", 0⟩], [⟨0, "USDC", 40000⟩], [], []⟩,
       [getAssociatedTokenAddress "USDC" "MERCHANT", "REF"], none⟩
      (getAssociatedTokenAddress "USDC" "MERCHANT") 50000 "USDC"
      ⟨0, "USDC", 40000⟩ 40000 rfl rfl).2 (by norm_num)⟩

/-- C4: in a production deployment the MOCK_PAYMENTS flag has no effect: the
config bypass check returns false, verifyPayment never takes the mock branch,
and two runs whose environments both have NODE_ENV = production — whatever
their MOCK_PAYMENTS values — produce identical verification outcomes on the
same ledger inputs. -/
theorem production_disables_mock :
    ∀ e1 e2 : Env, e1.nodeEnv = some "production" → e2.nodeEnv = some "production" →
      Config.isMockPaymentsEnabled e1 = false
        ∧ mockBranch e1 = false
        ∧ ∀ (reference recipient : String) (amount : ℤ) (splToken : Option String)
            (sigs : List SigInfo) (polls : List (Option SignatureStatus))
            (fetched : Option Tx) (now : ℤ),
            verifyPayment e1 reference recipient amount splToken sigs polls fetched now
              = verifyPayment e2 reference recipient amount splToken sigs polls fetched now := by
  intro e1 e2 h1 h2
  have hm1 : mockBranch e1 = false := by simp [mockBranch, h1]
  have hm2 : mockBranch e2 = false := by simp [mockBranch, h2]
  refine ⟨?_, hm1, ?_⟩
  · simp [Config.isMockPaymentsEnabled, Config.isProduction, h1]
  · intro reference recipient amount splToken sigs polls fetched now
    simp [verifyPayment, hm1, hm2]

/-- Witness for C4: two production environments, one with MOCK_PAYMENTS set to
true and one with it unset, agree on a concrete verification run, and the
bypass is reported disabled. -/
theorem production_disables_mock_witness :
    Config.isMockPaymentsEnabled ⟨some "true", some "production"⟩ = false
      ∧ mockBranch ⟨some "true", some "production"⟩ = false
      ∧ verifyPayment ⟨some "true", some "production"⟩ "REF" "MERCHANT" 50000 none [] [] none 0
          = verifyPayment ⟨none, some "production"⟩ "REF" "MERCHANT" 50000 none [] [] none 0 :=
  have h := production_disables_mock ⟨some "true", some "production"⟩
    ⟨none, some "production"⟩ rfl rfl
  ⟨h.1, h.2.1, h.2.2 "REF" "MERCHANT" 50000 none [] [] none 0⟩

/-! ## Claim theorems: retry backoff -/

/-- A concrete sequence of Math.random draws, each within [0, 1). -/
def counterexampleJitter : ℕ → ℚ
  | 0 => 98/100
  | _ => 0

/-- C8 counterexample: the delay sequence is not non-decreasing for every run of
withExponentialBackoff. A run configured with backoffMultiplier 3/2 (the option
accepts any multiplier) and jitter draws 0.98 then 0 computes delay 990 at
attempt 0 and delay 750 at attempt 1 — a strict decrease — even though both
jitter draws lie in Math.random's range [0, 1). -/
theorem backoffDelay_not_monotone_counterexample :
    (0 ≤ counterexampleJitter 0 ∧ counterexampleJitter 0 < 1)
      ∧ (0 ≤ counterexampleJitter 1 ∧ counterexampleJitter 1 < 1)
      ∧ backoffDelay 1000 30000 (3/2) counterexampleJitter 0 = 990
      ∧ backoffDelay 1000 30000 (3/2) counterexampleJitter 1 = 750
      ∧ backoffDelay 1000 30000 (3/2) counterexampleJitter 1
          < backoffDelay 1000 30000 (3/2) counterexampleJitter 0 := by
  refine ⟨⟨by norm_num [counterexampleJitter], by norm_num [counterexampleJitter]⟩,
    ⟨by norm_num [counterexampleJitter], by norm_num [counterexampleJitter]⟩, ?_, ?_, ?_⟩
    <;> norm_num [backoffDelay, counterexampleJitter, min_def]

/-- C8 (amended): whenever the configured backoff multiplier is at least 2 — as
in the default configuration, which no caller overrides — the computed backoff
delays (exponential base delay with a jitter factor in [0.5, 1), clamped at the
configured maximum) are non-decreasing from each retry attempt to the next, for
every jitter draw sequence in Math.random's range. -/
theorem backoffDelay_monotone :
    ∀ (initialDelayMs maxDelayMs backoffMultiplier : ℚ) (jitter : ℕ → ℚ),
      0 ≤ initialDelayMs →
      2 ≤ backoffMultiplier →
      (∀ n, 0 ≤ jitter n ∧ jitter n < 1) →
      ∀ attempt : ℕ,
        backoffDelay initialDelayMs maxDelayMs backoffMultiplier jitter attempt
          ≤ backoffDelay initialDelayMs maxDelayMs backoffMultiplier jitter (attempt + 1) := by
  intro b M m jitter hb hm hj n
  have hmpos : (0:ℚ) ≤ m := by linarith
  have hpow : (0:ℚ) ≤ b * m ^ n := mul_nonneg hb (pow_nonneg hmpos n)
  have hpow1 : (0:ℚ) ≤ b * m ^ (n + 1) := mul_nonneg hb (pow_nonneg hmpos (n + 1))
  have hfac1 : 1/2 + jitter n * (1/2) ≤ 1 := by have := (hj n).2; linarith
  have hfac0 : (1:ℚ)/2 ≤ 1/2 + jitter (n + 1) * (1/2) := by have := (hj (n + 1)).1; linarith
  have h1 : b * m ^ n * (1/2 + jitter n * (1/2)) ≤ b * m ^ n := by
    calc b * m ^ n * (1/2 + jitter n * (1/2)) ≤ b * m ^ n * 1 :=
          mul_le_mul_of_nonneg_left hfac1 hpow
      _ = b * m ^ n := by ring
  have h2 : b * m ^ n ≤ b * m ^ (n + 1) * (1/2 + jitter (n + 1) * (1/2)) := by
    have hstep : b * m ^ n ≤ b * m ^ (n + 1) * (1/2) := by
      have hexp : b * m ^ (n + 1) * (1/2) = b * m ^ n * (m * (1/2)) := by ring
      rw [hexp]
      nlinarith [mul_nonneg hpow (by linarith : (0:ℚ) ≤ m - 2)]
    calc b * m ^ n ≤ b * m ^ (n + 1) * (1/2) := hstep
      _ ≤ b * m ^ (n + 1) * (1/2 + jitter (n + 1) * (1/2)) :=
          mul_le_mul_of_nonneg_left hfac0 hpow1
  simp only [backoffDelay]
  exact min_le_min (le_trans h1 h2) le_rfl

/-- Witness for the amended C8: the default configuration (initial delay 1000 ms,
cap 30000 ms, multiplier 2) with a constant mid-range jitter draw. -/
theorem backoffDelay_monotone_witness :
    backoffDelay 1000 30000 2 (fun _ => 1/2) 0 ≤ backoffDelay 1000 30000 2 (fun _ => 1/2) 1 :=
  backoffDelay_monotone 1000 30000 2 (fun _ => 1/2) (by norm_num) (by norm_num)
    (fun _ => ⟨by norm_num, by norm_num⟩) 0

/-! ## Transaction templates (transaction-builder.ts and index.ts builders) -/

/-- Fixed PayAI fee payer used by every USDC payment template. -/
def PAYAI_FEE_PAYER : String := "2wKupLR9q6wXYppw8Gr2NvWxKBUqm4PPJKkQfoxHDBg4"

def USDC_MINT_MAINNET : String := "EPjFWdd5AufqSSqeM2qN1xzybapC8G4wEGGkZwyTDt1v"

def USDC_MINT_DEVNET : String := "4zMMC9srt5Ri5X14GAgXhaHii3GnPAEERYPJgZJDncDU"

def USDC_DECIMALS : ℕ := 6

inductive Network
  | mainnetBeta
  | devnet
deriving DecidableEq, Repr

def usdcMintFor : Network → String
  | .devnet => USDC_MINT_DEVNET
  | .mainnetBeta => USDC_MINT_MAINNET

/-- One unsigned instruction of a template. The memo instruction's fixed program
id is immaterial to the claims, so only its data is carried; transferChecked and
systemTransfer carry the reference keys pushed onto instruction.keys. -/
inductive Instruction
  | setComputeUnitLimit (units : ℕ)
  | setComputeUnitPrice (microLamports : ℕ)
  | transferChecked (source mint destination owner : String) (amount : ℤ) (decimals : ℕ)
      (extraKeys : List String)
  | systemTransfer (fromPubkey toPubkey : String) (lamports : ℤ) (extraKeys : List String)
  | createAssociatedTokenAccount (payer associatedToken owner mint : String)
  | memoData (data : String)
deriving DecidableEq, Repr

structure TransactionTemplate where
  feePayer : String
  recentBlockhash : String
  instructions : List Instruction
deriving DecidableEq, Repr

structure BuildUsdcPaymentTxParams where
  payer : String
  merchant : String
  amountUsdc : ℚ
  network : Network
deriving DecidableEq, Repr

/-- Chain observations made by buildUsdcPaymentTransaction: whether each ATA
derivation succeeds (it throws on off-curve inputs), the payer's USDC account
amount (none when getAccount reports could-not-find), whether the merchant's
ATA account exists, and the fetched blockhash. -/
structure PaymentChainView where
  payerDerivable : Bool
  merchantDerivable : Bool
  payerAtaAmount : Option ℤ
  merchantAtaExists : Bool
  blockhash : String
deriving DecidableEq, Repr

inductive BuildError
  | invalidPayerAddress
  | invalidMerchantAddress
  | noUsdcAccount
  | insufficientUsdcBalance
  | merchantAtaMissing
deriving DecidableEq, Repr

/-- buildUsdcPaymentTransaction: derive both ATAs, check the payer's balance,
require the merchant's ATA to exist, then emit exactly three instructions
(compute-unit limit 40000, compute-unit price 1, transferChecked) with the
fixed PayAI fee payer. -/
def buildUsdcPaymentTransaction (params : BuildUsdcPaymentTxParams)
    (chain : PaymentChainView) : Except BuildError TransactionTemplate :=
  let mint := usdcMintFor params.network
  let amountAtomic : ℤ := round (params.amountUsdc * 1000000)
  if !chain.payerDerivable then .error .invalidPayerAddress
  else if !chain.merchantDerivable then .error .invalidMerchantAddress
  else
    let payerATA := getAssociatedTokenAddress mint params.payer
    let merchantATA := getAssociatedTokenAddress mint params.merchant
    match chain.payerAtaAmount with
    | none => .error .noUsdcAccount
    | some payerAmount =>
      if (payerAmount : ℚ) / 1000000 < params.amountUsdc then .error .insufficientUsdcBalance
      else if !chain.merchantAtaExists then .error .merchantAtaMissing
      else .ok
        { feePayer := PAYAI_FEE_PAYER
          recentBlockhash := chain.blockhash
          instructions :=
            [ .setComputeUnitLimit 40000
            , .setComputeUnitPrice 1
            , .transferChecked payerATA mint merchantATA params.payer amountAtomic
                USDC_DECIMALS [] ] }

structure RewardParams where
  creator : String
  user : String
  amount : ℤ
  reference : Option String
  memo : Option String
  tokenMint : Option String
deriving DecidableEq, Repr

structure RefundParams where
  platformWallet : String
  user : String
  amount : ℤ
  reference : String
  memo : Option String
  tokenMint : Option String
deriving DecidableEq, Repr

/-- Chain observations made by the reward/refund builders: whether the user's
token account already exists, and the blockhashes fetched at confirmed (reward)
and finalized (refund) commitment. -/
structure BuilderChainView where
  userAtaExists : Bool
  blockhashConfirmed : String
  blockhashFinalized : String
deriving DecidableEq, Repr

/-- getOrCreateTokenAccount: the owner's associated token address plus, when the
account does not exist yet, the create-account instruction paid by payer. -/
def getOrCreateTokenAccount (payer owner mint : String) (accountExists : Bool) :
    String × Option Instruction :=
  let associatedToken := getAssociatedTokenAddress mint owner
  if accountExists then (associatedToken, none)
  else (associatedToken, some (.createAssociatedTokenAccount payer associatedToken owner mint))

/-- buildRewardTransaction: two compute-budget instructions first (limit 80000,
price 500000), then for a token reward an optional create-account instruction
and a transferChecked from the creator's token account carrying the optional
reference, or for native SOL a system transfer carrying the optional reference,
then an optional memo; the creator pays all fees. -/
def buildRewardTransaction (params : RewardParams) (chain : BuilderChainView) :
    TransactionTemplate :=
  let computeIxs : List Instruction :=
    [.setComputeUnitLimit 80000, .setComputeUnitPrice 500000]
  let refKeys : List String :=
    match params.reference with
    | some r => [r]
    | none => []
  let transferIxs : List Instruction :=
    match params.tokenMint with
    | some mint =>
      let creatorTokenAccount := getAssociatedTokenAddress mint params.creator
      let userTokenInfo :=
        getOrCreateTokenAccount params.creator params.user mint chain.userAtaExists
      let createIxs : List Instruction :=
        match userTokenInfo.2 with
        | some ix => [ix]
        | none => []
      createIxs
        ++ [.transferChecked creatorTokenAccount mint userTokenInfo.1 params.creator
              params.amount USDC_DECIMALS refKeys]
    | none => [.systemTransfer params.creator params.user params.amount refKeys]
  let memoIxs : List Instruction :=
    match params.memo with
    | some m => [.memoData m]
    | none => []
  { feePayer := params.creator
    recentBlockhash := chain.blockhashConfirmed
    instructions := computeIxs ++ transferIxs ++ memoIxs }

/-- buildRefundTransaction: no compute-budget instructions; for a token refund an
optional create-account instruction and a transferChecked from the platform's
token account always carrying the reference, or for native SOL a system
transfer carrying the reference, then an optional memo; the platform wallet
pays all fees. -/
def buildRefundTransaction (params : RefundParams) (chain : BuilderChainView) :
    TransactionTemplate :=
  let transferIxs : List Instruction :=
    match params.tokenMint with
    | some mint =>
      let platformTokenAccount := getAssociatedTokenAddress mint params.platformWallet
      let userTokenInfo :=
        getOrCreateTokenAccount params.platformWallet params.user mint chain.userAtaExists
      let createIxs : List Instruction :=
        match userTokenInfo.2 with
        | some ix => [ix]
        | none => []
      createIxs
        ++ [.transferChecked platformTokenAccount mint userTokenInfo.1 params.platformWallet
              params.amount USDC_DECIMALS [params.reference]]
    | none =>
      [.systemTransfer params.platformWallet params.user params.amount [params.reference]]
  let memoIxs : List Instruction :=
    match params.memo with
    | some m => [.memoData m]
    | none => []
  { feePayer := params.platformWallet
    recentBlockhash := chain.blockhashFinalized
    instructions := transferIxs ++ memoIxs }

/-! ## Claim theorems: transaction templates -/

/-- C5 counterexample: the builder does not reject a payer input equal to the
fixed PayAI fee payer; the build succeeds and the template's fee-paying
identity equals the sending wallet, refuting distinctness for every payer
input. -/
theorem buildUsdcPayment_feePayer_eq_sender_counterexample :
    (buildUsdcPaymentTransaction
        { payer := PAYAI_FEE_PAYER, merchant := "MERCHANT", amountUsdc := 1/100,
          network := .mainnetBeta }
        { payerDerivable := true, merchantDerivable := true, payerAtaAmount := some 1000000,
          merchantAtaExists := true, blockhash := "BLOCKHASH" }).map
      (fun t => t.feePayer)
      = .ok PAYAI_FEE_PAYER := by
  simp only [buildUsdcPaymentTransaction, Except.map]
  norm_num

/-- C5 (amended): every successfully built payment template has exactly three
instructions in the fixed order [set-compute-unit-limit 40000,
set-compute-unit-price 1, SPL transferChecked], and its fee payer is the fixed
PayAI constant — hence distinct from the sending wallet for every payer input
other than that constant (which the builder does not reject). -/
theorem buildUsdcPaymentTransaction_shape :
    ∀ (params : BuildUsdcPaymentTxParams) (chain : PaymentChainView) (t : TransactionTemplate),
      buildUsdcPaymentTransaction params chain = .ok t →
      t.instructions
          = [ .setComputeUnitLimit 40000
            , .setComputeUnitPrice 1
            , .transferChecked
                (getAssociatedTokenAddress (usdcMintFor params.network) params.payer)
                (usdcMintFor params.network)
                (getAssociatedTokenAddress (usdcMintFor params.network) params.merchant)
                params.payer (round (params.amountUsdc * 1000000)) USDC_DECIMALS [] ]
        ∧ t.feePayer = PAYAI_FEE_PAYER
        ∧ (params.payer ≠ PAYAI_FEE_PAYER → t.feePayer ≠ params.payer) := by
  intro params chain t h
  simp only [buildUsdcPaymentTransaction] at h
  split at h
  · exact Except.noConfusion h
  · split at h
    · exact Except.noConfusion h
    · split at h
      · exact Except.noConfusion h
      · split at h
        · exact Except.noConfusion h
        · split at h
          · exact Except.noConfusion h
          · injection h with h2
            subst h2
            exact ⟨rfl, rfl, fun hne heq => hne heq.symm⟩

/-- Witness for the amended C5: a concrete successful build with a sender
distinct from the PayAI constant. -/
theorem buildUsdcPaymentTransaction_shape_witness :
    (TransactionTemplate.mk PAYAI_FEE_PAYER "BLOCKHASH"
        [ .setComputeUnitLimit 40000
        , .setComputeUnitPrice 1
        , .transferChecked (getAssociatedTokenAddress USDC_MINT_MAINNET "SENDER")
            USDC_MINT_MAINNET (getAssociatedTokenAddress USDC_MINT_MAINNET "MERCHANT")
            "SENDER" 10000 USDC_DECIMALS [] ]).instructions
        = [ .setComputeUnitLimit 40000
          , .setComputeUnitPrice 1
          , .transferChecked
              (getAssociatedTokenAddress (usdcMintFor Network.mainnetBeta) "SENDER")
              (usdcMintFor Network.mainnetBeta)
              (getAssociatedTokenAddress (usdcMintFor Network.mainnetBeta) "MERCHANT")
              "SENDER" (round ((1:ℚ)/100 * 1000000)) USDC_DECIMALS [] ]
      ∧ (TransactionTemplate.mk PAYAI_FEE_PAYER "BLOCKHASH"
          [ .setComputeUnitLimit 40000
          , .setComputeUnitPrice 1
          , .transferChecked (getAssociatedTokenAddress USDC_MINT_MAINNET "SENDER")
              USDC_MINT_MAINNET (getAssociatedTokenAddress USDC_MINT_MAINNET "MERCHANT")
              "SENDER" 10000 USDC_DECIMALS [] ]).feePayer = PAYAI_FEE_PAYER
      ∧ (TransactionTemplate.mk PAYAI_FEE_PAYER "BLOCKHASH"
          [ .setComputeUnitLimit 40000
          , .setComputeUnitPrice 1
          , .transferChecked (getAssociatedTokenAddress USDC_MINT_MAINNET "SENDER")
              USDC_MINT_MAINNET (getAssociatedTokenAddress USDC_MINT_MAINNET "MERCHANT")
              "SENDER" 10000 USDC_DECIMALS [] ]).feePayer ≠ "SENDER" := by
  have h := buildUsdcPaymentTransaction_shape
    { payer := "SENDER", merchant := "MERCHANT", amountUsdc := 1/100, network := .mainnetBeta }
    { payerDerivable := true, merchantDerivable := true, payerAtaAmount := some 1000000,
      merchantAtaExists := true, blockhash := "BLOCKHASH" }
    (TransactionTemplate.mk PAYAI_FEE_PAYER "BLOCKHASH"
        [ .setComputeUnitLimit 40000
        , .setComputeUnitPrice 1
        , .transferChecked (getAssociatedTokenAddress USDC_MINT_MAINNET "SENDER")
            USDC_MINT_MAINNET (getAssociatedTokenAddress USDC_MINT_MAINNET "MERCHANT")
            "SENDER" 10000 USDC_DECIMALS [] ])
    (by
      simp only [buildUsdcPaymentTransaction]
      norm_num [round_eq, usdcMintFor, USDC_DECIMALS])
  exact ⟨h.1, h.2.1, h.2.2 (by decide)⟩

/-- C9 counterexample: for the same asset, recipient, amount, memo, reference —
and even the same sending wallet — the reward template has two leading
compute-budget instructions that the refund template lacks: 3 instructions
against 1, so the instruction sequences are not structurally identical. -/
theorem refund_reward_shape_counterexample :
    (buildRewardTransaction
        { creator := "PLATFORM", user := "USER", amount := 50000, reference := some "REF",
          memo := none, tokenMint := some "USDC" }
        { userAtaExists := true, blockhashConfirmed := "BH", blockhashFinalized := "BH" }
      ).instructions.length = 3
    ∧ (buildRefundTransaction
        { platformWallet := "PLATFORM", user := "USER", amount := 50000, reference := "REF",
          memo := none, tokenMint := some "USDC" }
        { userAtaExists := true, blockhashConfirmed := "BH", blockhashFinalized := "BH" }
      ).instructions.length = 1
    ∧ (buildRewardTransaction
        { creator := "PLATFORM", user := "USER", amount := 50000, reference := some "REF",
          memo := none, tokenMint := some "USDC" }
        { userAtaExists := true, blockhashConfirmed := "BH", blockhashFinalized := "BH" }
      ).instructions
      ≠ (buildRefundTransaction
        { platformWallet := "PLATFORM", user := "USER", amount := 50000, reference := "REF",
          memo := none, tokenMint := some "USDC" }
        { userAtaExists := true, blockhashConfirmed := "BH", blockhashFinalized := "BH" }
      ).instructions := by
  refine ⟨rfl, rfl, ?_⟩
  decide

/-- C9 (amended): the refund template equals the reward template built with the
platform wallet as sender and the same reference, minus the reward's two
leading compute-budget instructions (set-compute-limit 80000 then
set-compute-price 500000), which the refund omits; the refund draws from the
platform-held balance, the platform wallet is the fee payer, and the original
payment reference is attached to its transfer instruction via the shared drop-2
equality. -/
theorem buildRefundTransaction_structure :
    ∀ (platformWallet user : String) (amount : ℤ) (reference : String) (memo : Option String)
      (tokenMint : Option String) (chain : BuilderChainView),
      (buildRefundTransaction
          { platformWallet := platformWallet, user := user, amount := amount,
            reference := reference, memo := memo, tokenMint := tokenMint } chain).instructions
          = ((buildRewardTransaction
              { creator := platformWallet, user := user, amount := amount,
                reference := some reference, memo := memo, tokenMint := tokenMint }
              chain).instructions).drop 2
        ∧ (buildRefundTransaction
            { platformWallet := platformWallet, user := user, amount := amount,
              reference := reference, memo := memo, tokenMint := tokenMint } chain).feePayer
              = platformWallet
        ∧ ((buildRewardTransaction
            { creator := platformWallet, user := user, amount := amount,
              reference := some reference, memo := memo, tokenMint := tokenMint }
            chain).instructions).take 2
              = [.setComputeUnitLimit 80000, .setComputeUnitPrice 500000] := by
  intro platformWallet user amount reference memo tokenMint chain
  obtain ⟨uae, bh1, bh2⟩ := chain
  cases tokenMint <;> cases memo <;> cases uae <;>
    simp [buildRefundTransaction, buildRewardTransaction, getOrCreateTokenAccount]

end Blink402
